import Mathlib

/-!
Verification of the session-accounting core of the discord viewer tracker.

The embedding follows src/database.py and src/tracker.py. Wall-clock time is
modelled as a rational number passed explicitly to every operation (the code
reads the clock with datetime.now or the sqlite datetime function at each
call). Timestamp strings are modelled by the type TimeStr: a string that
parses to a time t is modelled by TimeStr.valid t, and a string that
_parse_time rejects is modelled by TimeStr.malformed s.

Both storage backends key every table by the user id alone: the sqlite
tables declare user_id INTEGER PRIMARY KEY, and the JSON fallback document
keys each of its three mappings by str(user_id). The embedding therefore
uses association lists keyed by the string form of the user id, mirroring
the JSON document; the sqlite integer key is mapped injectively through
toString. Dictionary semantics (assignment replaces in place, new keys
append) are implemented by insertA.
-/

namespace ViewerTracker

/-- A stored timestamp string: either one that parses to a wall-clock
time, or a malformed one that the parser rejects. -/
inductive TimeStr where
  | valid (t : ℚ)
  | malformed (s : String)
deriving DecidableEq

/-- Embeds _parse_time (database.py line 151): returns the parsed time, or
fails (the Python code raises ValueError) on an unrecognized string. -/
def parse_time : TimeStr → Option ℚ
  | .valid t => some t
  | .malformed _ => none

/-- A row of the active_sessions table (database.py lines 77 to 84) and
equally an entry of the active_sessions mapping of the JSON document
(lines 179 to 183). Keyed by the user id alone, so it carries no user_id
field of its own beyond the key. -/
structure ActiveSession where
  session_type : String
  start_time : TimeStr
  channel_id : Nat
deriving DecidableEq

/-- A row of the voice_time table (database.py lines 67 to 75) and equally
an entry of the voice_time mapping of the JSON document (line 226). -/
structure VoiceRow where
  user_id : Nat
  username : String
  total_voice_time : ℚ
  voice_sessions : Nat
  last_joined : TimeStr
deriving DecidableEq

/-- A row of the streamers table (database.py lines 57 to 65) and equally
an entry of the streamers mapping of the JSON document (line 295). -/
structure StreamRow where
  user_id : Nat
  username : String
  total_stream_time : ℚ
  stream_sessions : Nat
  last_streamed : TimeStr
deriving DecidableEq

/-- The whole persisted state: the three tables of the sqlite schema, which
are also the three top-level mappings of the JSON fallback document
(database.py line 132). -/
structure DB where
  streamers : List (String × StreamRow)
  voice_time : List (String × VoiceRow)
  active_sessions : List (String × ActiveSession)
deriving DecidableEq

/-- The state created by _init_sqlite and by _init_json_store: all three
tables empty. -/
def emptyDB : DB := ⟨[], [], []⟩

/-- Key lookup in an association list, embedding both a sqlite SELECT by
primary key and a Python dict .get. -/
def lookupA {α : Type} : List (String × α) → String → Option α
  | [], _ => none
  | (k, v) :: rest, key => if k = key then some v else lookupA rest key

/-- Key insertion with dict semantics (an existing key is overwritten in
place, a new key is appended), embedding both sqlite INSERT OR REPLACE on
the primary key and Python dict assignment. -/
def insertA {α : Type} : List (String × α) → String → α → List (String × α)
  | [], key, v => [(key, v)]
  | (k, w) :: rest, key, v =>
      if k = key then (key, v) :: rest else (k, w) :: insertA rest key v

/-- Key removal, embedding both sqlite DELETE by user_id and Python del. -/
def eraseA {α : Type} : List (String × α) → String → List (String × α)
  | [], _ => []
  | (k, w) :: rest, key =>
      if k = key then eraseA rest key else (k, w) :: eraseA rest key

/-- Embeds start_voice_session (database.py lines 166 to 186). Both
backends store an active session of type voice keyed by the user id,
replacing any existing active session for that user; the timestamp written
by datetime(now) in sqlite and by _now_iso in JSON is the current time.
The username argument is only printed, never stored. -/
def start_voice_session (db : DB) (user_id : Nat) (_username : String)
    (channel_id : Nat) (now : ℚ) : DB :=
  { db with
      active_sessions :=
        insertA db.active_sessions (toString user_id)
          (ActiveSession.mk "voice" (.valid now) channel_id) }

/-- Embeds start_stream_session (database.py lines 237 to 256): identical
to start_voice_session except the stored session_type is stream. -/
def start_stream_session (db : DB) (user_id : Nat) (_username : String)
    (channel_id : Nat) (now : ℚ) : DB :=
  { db with
      active_sessions :=
        insertA db.active_sessions (toString user_id)
          (ActiveSession.mk "stream" (.valid now) channel_id) }

/-- Embeds the sqlite branch of end_voice_session (database.py lines 189
to 217). The SELECT filters by user_id and session_type voice; if no such
row exists the call returns 0 with no state change. A start time that
fails to parse is replaced by the current time (the except branch at line
201), giving a zero duration. The voice_time row is updated, or inserted
with username User_ followed by the user id, and the active session row of
the user is deleted. Returns elapsed minutes, duration divided by 60. -/
def end_voice_session_sqlite (db : DB) (user_id : Nat) (now : ℚ) :
    ℚ × DB :=
  match lookupA db.active_sessions (toString user_id) with
  | none => (0, db)
  | some s =>
    if s.session_type = "voice" then
      let start : ℚ := match parse_time s.start_time with
        | some t => t
        | none => now
      let duration := now - start
      let vt : VoiceRow := match lookupA db.voice_time (toString user_id) with
        | some r =>
          { r with total_voice_time := r.total_voice_time + duration,
                   voice_sessions := r.voice_sessions + 1,
                   last_joined := .valid now }
        | none =>
          ⟨user_id, "User_" ++ toString user_id, duration, 1, .valid now⟩
      (duration / 60,
        { db with
            voice_time := insertA db.voice_time (toString user_id) vt,
            active_sessions := eraseA db.active_sessions (toString user_id) })
    else (0, db)

/-- Embeds the JSON branch of end_voice_session (database.py lines 218 to
235). Unlike the sqlite branch, the call to _parse_time at line 223 is not
guarded, so a malformed start time makes the whole call fail (the Python
code raises); a failed call is none and leaves the document unwritten.
Otherwise the voice_time entry is updated or created with username User_
followed by the user id, the active session entry is deleted, and elapsed
minutes are returned. -/
def end_voice_session_json (db : DB) (user_id : Nat) (now : ℚ) :
    Option (ℚ × DB) :=
  match lookupA db.active_sessions (toString user_id) with
  | none => some (0, db)
  | some s =>
    if s.session_type = "voice" then
      match parse_time s.start_time with
      | none => none
      | some start =>
        let duration := now - start
        let base : VoiceRow := match lookupA db.voice_time (toString user_id) with
          | some r => r
          | none => ⟨user_id, "User_" ++ toString user_id, 0, 0, .valid now⟩
        let vt : VoiceRow :=
          { base with total_voice_time := base.total_voice_time + duration,
                      voice_sessions := base.voice_sessions + 1,
                      last_joined := .valid now }
        some (duration / 60,
          { db with
              voice_time := insertA db.voice_time (toString user_id) vt,
              active_sessions := eraseA db.active_sessions (toString user_id) })
    else some (0, db)

/-- Embeds the sqlite branch of end_stream_session (database.py lines 258
to 286), the stream analogue of end_voice_session_sqlite. -/
def end_stream_session_sqlite (db : DB) (user_id : Nat) (now : ℚ) :
    ℚ × DB :=
  match lookupA db.active_sessions (toString user_id) with
  | none => (0, db)
  | some s =>
    if s.session_type = "stream" then
      let start : ℚ := match parse_time s.start_time with
        | some t => t
        | none => now
      let duration := now - start
      let st : StreamRow := match lookupA db.streamers (toString user_id) with
        | some r =>
          { r with total_stream_time := r.total_stream_time + duration,
                   stream_sessions := r.stream_sessions + 1,
                   last_streamed := .valid now }
        | none =>
          ⟨user_id, "User_" ++ toString user_id, duration, 1, .valid now⟩
      (duration / 60,
        { db with
            streamers := insertA db.streamers (toString user_id) st,
            active_sessions := eraseA db.active_sessions (toString user_id) })
    else (0, db)

/-- Embeds the JSON branch of end_stream_session (database.py lines 287 to
304), the stream analogue of end_voice_session_json: the _parse_time call
at line 292 is unguarded, so a malformed start time fails the call. -/
def end_stream_session_json (db : DB) (user_id : Nat) (now : ℚ) :
    Option (ℚ × DB) :=
  match lookupA db.active_sessions (toString user_id) with
  | none => some (0, db)
  | some s =>
    if s.session_type = "stream" then
      match parse_time s.start_time with
      | none => none
      | some start =>
        let duration := now - start
        let base : StreamRow := match lookupA db.streamers (toString user_id) with
          | some r => r
          | none => ⟨user_id, "User_" ++ toString user_id, 0, 0, .valid now⟩
        let st : StreamRow :=
          { base with total_stream_time := base.total_stream_time + duration,
                      stream_sessions := base.stream_sessions + 1,
                      last_streamed := .valid now }
        some (duration / 60,
          { db with
              streamers := insertA db.streamers (toString user_id) st,
              active_sessions := eraseA db.active_sessions (toString user_id) })
    else some (0, db)

/-- An entry returned by the leaderboard queries (database.py lines 313
and 318 to 323): user id, username, total time and session count. The
Python dict field is named total_voice_time or total_stream_time depending
on the query; the embedding uses the single field total_time. -/
structure TopEntry where
  user_id : Nat
  username : String
  total_time : ℚ
  sessions : Nat
deriving DecidableEq

/-- Embeds get_top_voice_users (database.py lines 306 to 325): build one
entry per voice_time row (the JSON branch recovers the integer user id
from the string key with int), sort descending by total time with a stable
sort (Python list.sort with reverse true; the sqlite branch orders by
total_voice_time DESC, tie order not contractual), and keep the first
limit entries. -/
def get_top_voice_users (db : DB) (limit : Nat) : List TopEntry :=
  let items := db.voice_time.map fun p =>
    TopEntry.mk (p.1.toNat?.getD 0) p.2.username p.2.total_voice_time
      p.2.voice_sessions
  (items.mergeSort fun a b => decide (b.total_time ≤ a.total_time)).take limit

/-- Embeds get_top_streamers (database.py lines 327 to 346), the stream
analogue of get_top_voice_users. -/
def get_top_streamers (db : DB) (limit : Nat) : List TopEntry :=
  let items := db.streamers.map fun p =>
    TopEntry.mk (p.1.toNat?.getD 0) p.2.username p.2.total_stream_time
      p.2.stream_sessions
  (items.mergeSort fun a b => decide (b.total_time ≤ a.total_time)).take limit

/-- Embeds get_user_watch_stats (database.py lines 348 to 363): look up the
voice_time row of the user; if present return its total and session count,
otherwise return None. -/
def get_user_watch_stats (db : DB) (user_id : Nat) : Option (ℚ × Nat) :=
  match lookupA db.voice_time (toString user_id) with
  | some v => some (v.total_voice_time, v.voice_sessions)
  | none => none

/-- Total voice seconds recorded for a user, reading 0 when no voice_time
row exists. -/
def voiceTotal (db : DB) (user_id : Nat) : ℚ :=
  match lookupA db.voice_time (toString user_id) with
  | some r => r.total_voice_time
  | none => 0

/-- Voice session count recorded for a user, reading 0 when no voice_time
row exists. -/
def voiceCount (db : DB) (user_id : Nat) : Nat :=
  match lookupA db.voice_time (toString user_id) with
  | some r => r.voice_sessions
  | none => 0

/-- Total stream seconds recorded for a user, reading 0 when no streamers
row exists. -/
def streamTotal (db : DB) (user_id : Nat) : ℚ :=
  match lookupA db.streamers (toString user_id) with
  | some r => r.total_stream_time
  | none => 0

/-- Stream session count recorded for a user, reading 0 when no streamers
row exists. -/
def streamCount (db : DB) (user_id : Nat) : Nat :=
  match lookupA db.streamers (toString user_id) with
  | some r => r.stream_sessions
  | none => 0

/-- The JSON values the flat-file document is built from: integers and
floats (json.dump writes Python int and float distinctly and json.load
reads them back), strings, timestamp strings (kept abstract as TimeStr),
and objects with ordered string keys. -/
inductive Json where
  | jint (n : Int)
  | jnum (q : ℚ)
  | jstr (s : String)
  | jtime (t : TimeStr)
  | jobj (kvs : List (String × Json))

/-- Serializes a voice_time entry the way _write_json lays it out (the
dict built at database.py lines 226 to 230). -/
def encodeVoiceRow (r : VoiceRow) : Json :=
  .jobj [("user_id", .jint r.user_id), ("username", .jstr r.username),
    ("total_voice_time", .jnum r.total_voice_time),
    ("voice_sessions", .jint r.voice_sessions),
    ("last_joined", .jtime r.last_joined)]

/-- Reads a voice_time entry back from its serialized form, as json.load
followed by the field accesses of the code does; anything of another shape
is rejected. -/
def decodeVoiceRow : Json → Option VoiceRow
  | .jobj [("user_id", .jint n), ("username", .jstr u),
      ("total_voice_time", .jnum q), ("voice_sessions", .jint s),
      ("last_joined", .jtime t)] =>
    if 0 ≤ n ∧ 0 ≤ s then some ⟨n.toNat, u, q, s.toNat, t⟩ else none
  | _ => none

/-- Serializes a streamers entry the way _write_json lays it out (the dict
built at database.py lines 295 to 299). -/
def encodeStreamRow (r : StreamRow) : Json :=
  .jobj [("user_id", .jint r.user_id), ("username", .jstr r.username),
    ("total_stream_time", .jnum r.total_stream_time),
    ("stream_sessions", .jint r.stream_sessions),
    ("last_streamed", .jtime r.last_streamed)]

/-- Reads a streamers entry back from its serialized form. -/
def decodeStreamRow : Json → Option StreamRow
  | .jobj [("user_id", .jint n), ("username", .jstr u),
      ("total_stream_time", .jnum q), ("stream_sessions", .jint s),
      ("last_streamed", .jtime t)] =>
    if 0 ≤ n ∧ 0 ≤ s then some ⟨n.toNat, u, q, s.toNat, t⟩ else none
  | _ => none

/-- Serializes an active_sessions entry (the dict built at database.py
lines 179 to 183). -/
def encodeSession (s : ActiveSession) : Json :=
  .jobj [("session_type", .jstr s.session_type),
    ("start_time", .jtime s.start_time),
    ("channel_id", .jint s.channel_id)]

/-- Reads an active_sessions entry back from its serialized form. -/
def decodeSession : Json → Option ActiveSession
  | .jobj [("session_type", .jstr ty), ("start_time", .jtime t),
      ("channel_id", .jint c)] =>
    if 0 ≤ c then some ⟨ty, t, c.toNat⟩ else none
  | _ => none

/-- Serializes one of the three top-level mappings, keeping its key order. -/
def encodeTable {α : Type} (enc : α → Json) (l : List (String × α)) :
    List (String × Json) :=
  l.map fun p => (p.1, enc p.2)

/-- Reads a top-level mapping back entry by entry, failing if any entry
fails to decode. -/
def decodeTable {α : Type} (dec : Json → Option α) :
    List (String × Json) → Option (List (String × α))
  | [] => some []
  | (k, j) :: rest => do
    let v ← dec j
    let vs ← decodeTable dec rest
    pure ((k, v) :: vs)

/-- Embeds _write_json (database.py lines 140 to 145): the document
written atomically to the fallback file, with the three top-level keys of
_init_json_store (line 132). -/
def writeJson (db : DB) : Json :=
  .jobj [("streamers", .jobj (encodeTable encodeStreamRow db.streamers)),
    ("voice_time", .jobj (encodeTable encodeVoiceRow db.voice_time)),
    ("active_sessions", .jobj (encodeTable encodeSession db.active_sessions))]

/-- Embeds _read_json (database.py lines 135 to 138): parse the fallback
file back into the in-memory state; a document of any other shape fails. -/
def readJson : Json → Option DB
  | .jobj [("streamers", .jobj ss), ("voice_time", .jobj vs),
      ("active_sessions", .jobj as)] => do
    let streamers ← decodeTable decodeStreamRow ss
    let voice ← decodeTable decodeVoiceRow vs
    let sessions ← decodeTable decodeSession as
    pure ⟨streamers, voice, sessions⟩
  | _ => none

/-- One notification delivered by the tracker (tracker.py lines 39 to 59):
a voice join, a voice leave, a stream start or a stream stop, with the
wall-clock time at which the database call runs. -/
inductive Event where
  | startVoice (user_id : Nat) (username : String) (channel_id : Nat) (t : ℚ)
  | endVoice (user_id : Nat) (t : ℚ)
  | startStream (user_id : Nat) (username : String) (channel_id : Nat) (t : ℚ)
  | endStream (user_id : Nat) (t : ℚ)

/-- Applies one event through the JSON backend. A failed close (the
unguarded _parse_time raising) writes nothing, so the persisted state is
unchanged. -/
def applyEvent (db : DB) : Event → DB
  | .startVoice u n c t => start_voice_session db u n c t
  | .endVoice u t =>
    match end_voice_session_json db u t with
    | some (_, db2) => db2
    | none => db
  | .startStream u n c t => start_stream_session db u n c t
  | .endStream u t =>
    match end_stream_session_json db u t with
    | some (_, db2) => db2
    | none => db

/-- Applies a sequence of events through the JSON backend, oldest first. -/
def applyEvents (db : DB) (es : List Event) : DB :=
  es.foldl applyEvent db

/-- Every aggregate row carries the placeholder username User_ followed by
its user id: the only statements that ever write a username are the two
INSERT branches and the two dict defaults, all of which write exactly this
placeholder. -/
def UsernameInv (db : DB) : Prop :=
  (∀ p ∈ db.voice_time, p.2.username = "User_" ++ toString p.2.user_id) ∧
  (∀ p ∈ db.streamers, p.2.username = "User_" ++ toString p.2.user_id)

theorem lookupA_insertA_self {α : Type} (l : List (String × α)) (k : String)
    (v : α) : lookupA (insertA l k v) k = some v := by
  induction l with
  | nil => simp [insertA, lookupA]
  | cons hd tl ih =>
    obtain ⟨k', v'⟩ := hd
    by_cases h : k' = k
    · simp [insertA, lookupA, h]
    · simp [insertA, lookupA, h, ih]

theorem lookupA_insertA_ne {α : Type} (l : List (String × α)) (k k' : String)
    (v : α) (h : k ≠ k') : lookupA (insertA l k v) k' = lookupA l k' := by
  induction l with
  | nil => simp [insertA, lookupA, h]
  | cons hd tl ih =>
    obtain ⟨k₀, v₀⟩ := hd
    by_cases hk : k₀ = k
    · subst hk
      simp [insertA, lookupA, h]
    · by_cases hk' : k₀ = k'
      · simp [insertA, lookupA, hk, hk', Ne.symm h]
      · simp [insertA, lookupA, hk, hk', ih]

theorem lookupA_eraseA_self {α : Type} (l : List (String × α)) (k : String) :
    lookupA (eraseA l k) k = none := by
  induction l with
  | nil => simp [eraseA, lookupA]
  | cons hd tl ih =>
    obtain ⟨k', v'⟩ := hd
    by_cases h : k' = k
    · simp [eraseA, h, ih]
    · simp [eraseA, lookupA, h, ih]

theorem lookupA_mem {α : Type} (l : List (String × α)) (k : String) (v : α)
    (h : lookupA l k = some v) : (k, v) ∈ l := by
  induction l with
  | nil => simp [lookupA] at h
  | cons hd tl ih =>
    obtain ⟨k', v'⟩ := hd
    by_cases hk : k' = k
    · subst hk
      simp [lookupA] at h
      simp [h]
    · simp [lookupA, hk] at h
      exact List.mem_cons_of_mem _ (ih h)

theorem mem_insertA {α : Type} (l : List (String × α)) (k : String) (v : α)
    (p : String × α) (h : p ∈ insertA l k v) : p ∈ l ∨ p.2 = v := by
  induction l with
  | nil =>
    simp [insertA] at h
    simp [h]
  | cons hd tl ih =>
    obtain ⟨k', v'⟩ := hd
    by_cases hk : k' = k
    · simp [insertA, hk] at h
      rcases h with h | h
      · simp [h]
      · exact Or.inl (List.mem_cons_of_mem _ h)
    · simp [insertA, hk] at h
      rcases h with h | h
      · exact Or.inl (by simp [h])
      · rcases ih h with h' | h'
        · exact Or.inl (List.mem_cons_of_mem _ h')
        · exact Or.inr h'

/-- C1: evaluation of the code on the spec scenario. Because both backends
key active_sessions by the user id alone, toggling streaming on REPLACES
the active voice session instead of opening a second one: user 1 joins
voice at time 0, starts streaming at time 0, stops at time 300 (the
StreamAggregate does get 300 seconds and session_count 1), but the voice
leave at time 900 then returns 0 minutes and no voice aggregate row is
ever created, contradicting the claim that the voice session stays in
place and the leave credits the full voice duration. -/
theorem claim_C1_stream_toggle_destroys_voice_session :
    lookupA (start_stream_session (start_voice_session emptyDB 1 "B" 100 0)
        1 "B" 100 0).active_sessions (toString 1)
      = some (ActiveSession.mk "stream" (.valid 0) 100) ∧
    end_voice_session_json
        (applyEvents emptyDB [Event.startVoice 1 "B" 100 0,
          Event.startStream 1 "B" 100 0, Event.endStream 1 300]) 1 900
      = some (0, applyEvents emptyDB [Event.startVoice 1 "B" 100 0,
          Event.startStream 1 "B" 100 0, Event.endStream 1 300]) ∧
    streamTotal (applyEvents emptyDB [Event.startVoice 1 "B" 100 0,
        Event.startStream 1 "B" 100 0, Event.endStream 1 300,
        Event.endVoice 1 900]) 1 = 300 ∧
    streamCount (applyEvents emptyDB [Event.startVoice 1 "B" 100 0,
        Event.startStream 1 "B" 100 0, Event.endStream 1 300,
        Event.endVoice 1 900]) 1 = 1 ∧
    voiceTotal (applyEvents emptyDB [Event.startVoice 1 "B" 100 0,
        Event.startStream 1 "B" 100 0, Event.endStream 1 300,
        Event.endVoice 1 900]) 1 = 0 ∧
    voiceCount (applyEvents emptyDB [Event.startVoice 1 "B" 100 0,
        Event.startStream 1 "B" 100 0, Event.endStream 1 300,
        Event.endVoice 1 900]) 1 = 0 := by
  norm_num [applyEvents, applyEvent, start_voice_session, start_stream_session,
    end_voice_session_json, end_stream_session_json, parse_time, insertA,
    eraseA, lookupA, voiceTotal, voiceCount, streamTotal, streamCount, emptyDB]

/-- C2 counterexample: on the JSON backend, closing a voice session whose
stored start_time is malformed fails (the unguarded _parse_time call at
database.py line 223 raises), so the close operation does NOT complete on
every backend as the claim states. -/
theorem claim_C2_counterexample_json_end_raises :
    end_voice_session_json
      (DB.mk [] [] [("7", ActiveSession.mk "voice" (.malformed "garbage") 3)])
      7 100 = none := rfl

/-- C2 as amended: on the SQLITE backend, ending a session (voice or
stream) whose start_time cannot be parsed substitutes a zero duration and
completes, deleting the active session and updating the aggregate (total
unchanged, session count incremented); the JSON backend instead propagates
the parse error. -/
theorem claim_C2_sqlite_end_zero_duration (db : DB) (u : Nat) (t : ℚ)
    (s : ActiveSession)
    (hs : lookupA db.active_sessions (toString u) = some s)
    (hmal : parse_time s.start_time = none) :
    (s.session_type = "voice" →
      (end_voice_session_sqlite db u t).1 = 0 ∧
      lookupA (end_voice_session_sqlite db u t).2.active_sessions
        (toString u) = none ∧
      voiceTotal (end_voice_session_sqlite db u t).2 u = voiceTotal db u ∧
      voiceCount (end_voice_session_sqlite db u t).2 u = voiceCount db u + 1) ∧
    (s.session_type = "stream" →
      (end_stream_session_sqlite db u t).1 = 0 ∧
      lookupA (end_stream_session_sqlite db u t).2.active_sessions
        (toString u) = none ∧
      streamTotal (end_stream_session_sqlite db u t).2 u = streamTotal db u ∧
      streamCount (end_stream_session_sqlite db u t).2 u = streamCount db u + 1) := by
  constructor
  · intro hty
    simp only [end_voice_session_sqlite, hs, hty, hmal, if_true]
    cases hv : lookupA db.voice_time (toString u) with
    | some r =>
      simp [voiceTotal, voiceCount, hv, lookupA_insertA_self,
        lookupA_eraseA_self]
    | none =>
      simp [voiceTotal, voiceCount, hv, lookupA_insertA_self,
        lookupA_eraseA_self]
  · intro hty
    simp only [end_stream_session_sqlite, hs, hty, hmal, if_true]
    cases hv : lookupA db.streamers (toString u) with
    | some r =>
      simp [streamTotal, streamCount, hv, lookupA_insertA_self,
        lookupA_eraseA_self]
    | none =>
      simp [streamTotal, streamCount, hv, lookupA_insertA_self,
        lookupA_eraseA_self]

/-- C2 witness: the amended statement applied to a concrete store holding
one voice session with a malformed timestamp. -/
theorem claim_C2_sqlite_end_zero_duration_witness :
    let db := DB.mk [] []
      [("7", ActiveSession.mk "voice" (.malformed "garbage") 3)]
    ("voice" = "voice" →
      (end_voice_session_sqlite db 7 100).1 = 0 ∧
      lookupA (end_voice_session_sqlite db 7 100).2.active_sessions
        (toString 7) = none ∧
      voiceTotal (end_voice_session_sqlite db 7 100).2 7 = voiceTotal db 7 ∧
      voiceCount (end_voice_session_sqlite db 7 100).2 7 = voiceCount db 7 + 1) ∧
    ("voice" = "stream" →
      (end_stream_session_sqlite db 7 100).1 = 0 ∧
      lookupA (end_stream_session_sqlite db 7 100).2.active_sessions
        (toString 7) = none ∧
      streamTotal (end_stream_session_sqlite db 7 100).2 7 = streamTotal db 7 ∧
      streamCount (end_stream_session_sqlite db 7 100).2 7 = streamCount db 7 + 1) :=
  claim_C2_sqlite_end_zero_duration
    (DB.mk [] [] [("7", ActiveSession.mk "voice" (.malformed "garbage") 3)])
    7 100 (ActiveSession.mk "voice" (.malformed "garbage") 3)
    rfl rfl

/-- C3: a user joining channel 10 at time t0, moving to channel 20 at
t0 + 600 (the tracker handles a move as end_voice_session followed by
start_voice_session, tracker.py lines 24 to 28) and leaving at t0 + 900
ends with exactly 900 total voice seconds and a session count of 2, on
both backends. -/
theorem claim_C3_move_scenario (t0 : ℚ) :
    voiceTotal (applyEvents emptyDB
      [Event.startVoice 1 "A" 10 t0, Event.endVoice 1 (t0 + 600),
       Event.startVoice 1 "A" 20 (t0 + 600), Event.endVoice 1 (t0 + 900)]) 1
      = 900 ∧
    voiceCount (applyEvents emptyDB
      [Event.startVoice 1 "A" 10 t0, Event.endVoice 1 (t0 + 600),
       Event.startVoice 1 "A" 20 (t0 + 600), Event.endVoice 1 (t0 + 900)]) 1
      = 2 ∧
    voiceTotal (end_voice_session_sqlite (start_voice_session
      (end_voice_session_sqlite (start_voice_session emptyDB 1 "A" 10 t0)
        1 (t0 + 600)).2 1 "A" 20 (t0 + 600)) 1 (t0 + 900)).2 1 = 900 ∧
    voiceCount (end_voice_session_sqlite (start_voice_session
      (end_voice_session_sqlite (start_voice_session emptyDB 1 "A" 10 t0)
        1 (t0 + 600)).2 1 "A" 20 (t0 + 600)) 1 (t0 + 900)).2 1 = 2 := by
  norm_num [applyEvents, applyEvent, start_voice_session,
    end_voice_session_json, end_voice_session_sqlite, parse_time, insertA,
    eraseA, lookupA, voiceTotal, voiceCount, emptyDB]

/-- C4: for any prior state, starting a voice session and ending it d
seconds later returns d / 60 minutes, increases the total voice seconds of
the user by exactly d and the session count by exactly 1, on both
backends. -/
theorem claim_C4_start_end_credits_duration (db : DB) (u : Nat) (n : String)
    (ch : Nat) (t d : ℚ) (hd : 0 ≤ d) :
    (end_voice_session_sqlite (start_voice_session db u n ch t) u (t + d)).1
      = d / 60 ∧
    voiceTotal (end_voice_session_sqlite (start_voice_session db u n ch t) u
      (t + d)).2 u = voiceTotal db u + d ∧
    voiceCount (end_voice_session_sqlite (start_voice_session db u n ch t) u
      (t + d)).2 u = voiceCount db u + 1 ∧
    ∃ db2, end_voice_session_json (start_voice_session db u n ch t) u (t + d)
        = some (d / 60, db2) ∧
      voiceTotal db2 u = voiceTotal db u + d ∧
      voiceCount db2 u = voiceCount db u + 1 := by
  have hs : lookupA (start_voice_session db u n ch t).active_sessions
      (toString u) = some (ActiveSession.mk "voice" (.valid t) ch) :=
    lookupA_insertA_self _ _ _
  have hvt : (start_voice_session db u n ch t).voice_time = db.voice_time := rfl
  cases hv : lookupA db.voice_time (toString u) with
  | some r =>
    refine ⟨?_, ?_, ?_,
      ⟨{ db with
          voice_time := insertA db.voice_time (toString u)
            { r with total_voice_time := r.total_voice_time + d,
                     voice_sessions := r.voice_sessions + 1,
                     last_joined := .valid (t + d) },
          active_sessions :=
            eraseA (start_voice_session db u n ch t).active_sessions
              (toString u) }, ?_, ?_, ?_⟩⟩
    · simp [end_voice_session_sqlite, hs, parse_time, hvt, hv]
    · simp [end_voice_session_sqlite, hs, parse_time, hvt, hv, voiceTotal,
        voiceCount, lookupA_insertA_self]
    · simp [end_voice_session_sqlite, hs, parse_time, hvt, hv, voiceTotal,
        voiceCount, lookupA_insertA_self]
    · simp [end_voice_session_json, hs, parse_time, hvt, hv]
      rfl
    · simp [voiceTotal, lookupA_insertA_self, hv]
    · simp [voiceCount, lookupA_insertA_self, hv]
  | none =>
    refine ⟨?_, ?_, ?_,
      ⟨{ db with
          voice_time := insertA db.voice_time (toString u)
            ⟨u, "User_" ++ toString u, d, 1, .valid (t + d)⟩,
          active_sessions :=
            eraseA (start_voice_session db u n ch t).active_sessions
              (toString u) }, ?_, ?_, ?_⟩⟩
    · simp [end_voice_session_sqlite, hs, parse_time, hvt, hv]
    · simp [end_voice_session_sqlite, hs, parse_time, hvt, hv, voiceTotal,
        voiceCount, lookupA_insertA_self]
    · simp [end_voice_session_sqlite, hs, parse_time, hvt, hv, voiceTotal,
        voiceCount, lookupA_insertA_self]
    · simp [end_voice_session_json, hs, parse_time, hvt, hv]
      rfl
    · simp [voiceTotal, lookupA_insertA_self, hv]
    · simp [voiceCount, lookupA_insertA_self, hv]

/-- C4 witness: the statement applied at the empty store, user 1, start
time 0 and duration 60 seconds. -/
theorem claim_C4_start_end_credits_duration_witness :
    (end_voice_session_sqlite (start_voice_session emptyDB 1 "a" 2 0) 1
      (0 + 60)).1 = 60 / 60 ∧
    voiceTotal (end_voice_session_sqlite (start_voice_session emptyDB 1 "a" 2 0)
      1 (0 + 60)).2 1 = voiceTotal emptyDB 1 + 60 ∧
    voiceCount (end_voice_session_sqlite (start_voice_session emptyDB 1 "a" 2 0)
      1 (0 + 60)).2 1 = voiceCount emptyDB 1 + 1 ∧
    ∃ db2, end_voice_session_json (start_voice_session emptyDB 1 "a" 2 0) 1
        (0 + 60) = some (60 / 60, db2) ∧
      voiceTotal db2 1 = voiceTotal emptyDB 1 + 60 ∧
      voiceCount db2 1 = voiceCount emptyDB 1 + 1 :=
  claim_C4_start_end_credits_duration emptyDB 1 "a" 2 0 60 (by norm_num)

/-- C5: starting a session of a type while a session of the same type is
already active for the user overwrites the stored session in place (new
start time and channel) and adds nothing to either aggregate table, for
both activity types; start operations never touch voice_time or
streamers. -/
theorem claim_C5_restart_overwrites_session (db : DB) (u : Nat) (n : String)
    (ch : Nat) (t : ℚ) (s : ActiveSession)
    (hs : lookupA db.active_sessions (toString u) = some s) :
    (s.session_type = "voice" →
      lookupA (start_voice_session db u n ch t).active_sessions (toString u)
        = some (ActiveSession.mk "voice" (.valid t) ch) ∧
      (start_voice_session db u n ch t).voice_time = db.voice_time ∧
      (start_voice_session db u n ch t).streamers = db.streamers) ∧
    (s.session_type = "stream" →
      lookupA (start_stream_session db u n ch t).active_sessions (toString u)
        = some (ActiveSession.mk "stream" (.valid t) ch) ∧
      (start_stream_session db u n ch t).voice_time = db.voice_time ∧
      (start_stream_session db u n ch t).streamers = db.streamers) :=
  ⟨fun _ => ⟨lookupA_insertA_self _ _ _, rfl, rfl⟩,
   fun _ => ⟨lookupA_insertA_self _ _ _, rfl, rfl⟩⟩

/-- C5 witness: the statement applied to a store holding an active voice
session for user 4, restarted at time 50 in channel 9. -/
theorem claim_C5_restart_overwrites_session_witness :
    let db := DB.mk [] [] [("4", ActiveSession.mk "voice" (.valid 1) 8)]
    ("voice" = "voice" →
      lookupA (start_voice_session db 4 "n" 9 50).active_sessions (toString 4)
        = some (ActiveSession.mk "voice" (.valid 50) 9) ∧
      (start_voice_session db 4 "n" 9 50).voice_time = db.voice_time ∧
      (start_voice_session db 4 "n" 9 50).streamers = db.streamers) ∧
    ("voice" = "stream" →
      lookupA (start_stream_session db 4 "n" 9 50).active_sessions (toString 4)
        = some (ActiveSession.mk "stream" (.valid 50) 9) ∧
      (start_stream_session db 4 "n" 9 50).voice_time = db.voice_time ∧
      (start_stream_session db 4 "n" 9 50).streamers = db.streamers) :=
  claim_C5_restart_overwrites_session
    (DB.mk [] [] [("4", ActiveSession.mk "voice" (.valid 1) 8)])
    4 "n" 9 50 (ActiveSession.mk "voice" (.valid 1) 8) rfl

/-- C6: ending a session for a user with no active session of that type
returns 0 and leaves the whole store (aggregates and active sessions)
unchanged, on both backends and for both types; none of these operations
can fail. -/
theorem claim_C6_end_without_session_returns_zero (db : DB) (u : Nat)
    (t : ℚ) :
    ((∀ s, lookupA db.active_sessions (toString u) = some s →
        s.session_type ≠ "voice") →
      end_voice_session_sqlite db u t = (0, db) ∧
      end_voice_session_json db u t = some (0, db)) ∧
    ((∀ s, lookupA db.active_sessions (toString u) = some s →
        s.session_type ≠ "stream") →
      end_stream_session_sqlite db u t = (0, db) ∧
      end_stream_session_json db u t = some (0, db)) := by
  constructor
  · intro h
    cases hs : lookupA db.active_sessions (toString u) with
    | none =>
      exact ⟨by simp [end_voice_session_sqlite, hs],
        by simp [end_voice_session_json, hs]⟩
    | some s =>
      have hty := h s hs
      exact ⟨by simp [end_voice_session_sqlite, hs, hty],
        by simp [end_voice_session_json, hs, hty]⟩
  · intro h
    cases hs : lookupA db.active_sessions (toString u) with
    | none =>
      exact ⟨by simp [end_stream_session_sqlite, hs],
        by simp [end_stream_session_json, hs]⟩
    | some s =>
      have hty := h s hs
      exact ⟨by simp [end_stream_session_sqlite, hs, hty],
        by simp [end_stream_session_json, hs, hty]⟩

/-- C6 witness: the statement applied to a store whose only active session
for user 3 is a stream session, so an end of a voice session for user 3
and both ends for sessionless user 5 all return 0 and change nothing. -/
theorem claim_C6_end_without_session_returns_zero_witness :
    let db := DB.mk [] [] [("3", ActiveSession.mk "stream" (.valid 2) 6)]
    (end_voice_session_sqlite db 3 10 = (0, db) ∧
      end_voice_session_json db 3 10 = some (0, db)) ∧
    (end_stream_session_sqlite db 5 10 = (0, db) ∧
      end_stream_session_json db 5 10 = some (0, db)) := by
  refine ⟨(claim_C6_end_without_session_returns_zero
      (DB.mk [] [] [("3", ActiveSession.mk "stream" (.valid 2) 6)]) 3 10).1
      ?_,
    (claim_C6_end_without_session_returns_zero
      (DB.mk [] [] [("3", ActiveSession.mk "stream" (.valid 2) 6)]) 5 10).2
      ?_⟩
  · intro s hsome
    have h2 : some (ActiveSession.mk "stream" (.valid 2) 6) = some s := hsome
    rw [← Option.some.inj h2]
    decide
  · intro s hsome
    have h2 : (none : Option ActiveSession) = some s := hsome
    exact Option.noConfusion h2
/-- The voice aggregate part of UsernameInv is preserved by inserting a
row whose username is its own placeholder; streamers are untouched. -/
theorem voiceInvInsert (db : DB) (key : String) (vt : VoiceRow)
    (sess : List (String × ActiveSession)) (h : UsernameInv db)
    (hvt : vt.username = "User_" ++ toString vt.user_id) :
    UsernameInv { db with
        voice_time := insertA db.voice_time key vt,
        active_sessions := sess } := by
  constructor
  · intro p hp
    rcases mem_insertA _ _ _ p hp with hmem | hval
    · exact h.1 p hmem
    · rw [hval]
      exact hvt
  · exact h.2

/-- The stream aggregate part of UsernameInv is preserved by inserting a
row whose username is its own placeholder; voice_time is untouched. -/
theorem streamInvInsert (db : DB) (key : String) (st : StreamRow)
    (sess : List (String × ActiveSession)) (h : UsernameInv db)
    (hst : st.username = "User_" ++ toString st.user_id) :
    UsernameInv { db with
        streamers := insertA db.streamers key st,
        active_sessions := sess } := by
  constructor
  · exact h.1
  · intro p hp
    rcases mem_insertA _ _ _ p hp with hmem | hval
    · exact h.2 p hmem
    · rw [hval]
      exact hst

/-- end_voice_session_sqlite preserves the placeholder-username
invariant. -/
theorem end_voice_sqlite_inv (db : DB) (u : Nat) (t : ℚ)
    (h : UsernameInv db) :
    UsernameInv (end_voice_session_sqlite db u t).2 := by
  cases hsess : lookupA db.active_sessions (toString u) with
  | none => simpa [end_voice_session_sqlite, hsess] using h
  | some s =>
    by_cases hty : s.session_type = "voice"
    · cases hv : lookupA db.voice_time (toString u) with
      | some r =>
        have hru := h.1 _ (lookupA_mem _ _ _ hv)
        simp only [end_voice_session_sqlite, hsess, hty, if_true, hv]
        exact voiceInvInsert db _ _ _ h (by simpa using hru)
      | none =>
        simp only [end_voice_session_sqlite, hsess, hty, if_true, hv]
        exact voiceInvInsert db _ _ _ h rfl
    · simpa [end_voice_session_sqlite, hsess, hty] using h

/-- end_stream_session_sqlite preserves the placeholder-username
invariant. -/
theorem end_stream_sqlite_inv (db : DB) (u : Nat) (t : ℚ)
    (h : UsernameInv db) :
    UsernameInv (end_stream_session_sqlite db u t).2 := by
  cases hsess : lookupA db.active_sessions (toString u) with
  | none => simpa [end_stream_session_sqlite, hsess] using h
  | some s =>
    by_cases hty : s.session_type = "stream"
    · cases hv : lookupA db.streamers (toString u) with
      | some r =>
        have hru := h.2 _ (lookupA_mem _ _ _ hv)
        simp only [end_stream_session_sqlite, hsess, hty, if_true, hv]
        exact streamInvInsert db _ _ _ h (by simpa using hru)
      | none =>
        simp only [end_stream_session_sqlite, hsess, hty, if_true, hv]
        exact streamInvInsert db _ _ _ h rfl
    · simpa [end_stream_session_sqlite, hsess, hty] using h

/-- end_voice_session_json preserves the placeholder-username invariant on
every successful close. -/
theorem end_voice_json_inv (db : DB) (u : Nat) (t : ℚ) (m : ℚ) (db2 : DB)
    (h : UsernameInv db)
    (heq : end_voice_session_json db u t = some (m, db2)) :
    UsernameInv db2 := by
  cases hsess : lookupA db.active_sessions (toString u) with
  | none =>
    simp [end_voice_session_json, hsess] at heq
    rw [← heq.2]
    exact h
  | some s =>
    by_cases hty : s.session_type = "voice"
    · cases hpt : parse_time s.start_time with
      | none => simp [end_voice_session_json, hsess, hty, hpt] at heq
      | some t0 =>
        cases hv : lookupA db.voice_time (toString u) with
        | some r =>
          have hru := h.1 _ (lookupA_mem _ _ _ hv)
          simp only [end_voice_session_json, hsess, hty, if_true, hpt, hv,
            Option.some.injEq, Prod.mk.injEq] at heq
          rw [← heq.2]
          exact voiceInvInsert db _ _ _ h (by simpa using hru)
        | none =>
          simp only [end_voice_session_json, hsess, hty, if_true, hpt, hv,
            Option.some.injEq, Prod.mk.injEq] at heq
          rw [← heq.2]
          exact voiceInvInsert db _ _ _ h rfl
    · simp [end_voice_session_json, hsess, hty] at heq
      rw [← heq.2]
      exact h

/-- end_stream_session_json preserves the placeholder-username invariant
on every successful close. -/
theorem end_stream_json_inv (db : DB) (u : Nat) (t : ℚ) (m : ℚ) (db2 : DB)
    (h : UsernameInv db)
    (heq : end_stream_session_json db u t = some (m, db2)) :
    UsernameInv db2 := by
  cases hsess : lookupA db.active_sessions (toString u) with
  | none =>
    simp [end_stream_session_json, hsess] at heq
    rw [← heq.2]
    exact h
  | some s =>
    by_cases hty : s.session_type = "stream"
    · cases hpt : parse_time s.start_time with
      | none => simp [end_stream_session_json, hsess, hty, hpt] at heq
      | some t0 =>
        cases hv : lookupA db.streamers (toString u) with
        | some r =>
          have hru := h.2 _ (lookupA_mem _ _ _ hv)
          simp only [end_stream_session_json, hsess, hty, if_true, hpt, hv,
            Option.some.injEq, Prod.mk.injEq] at heq
          rw [← heq.2]
          exact streamInvInsert db _ _ _ h (by simpa using hru)
        | none =>
          simp only [end_stream_session_json, hsess, hty, if_true, hpt, hv,
            Option.some.injEq, Prod.mk.injEq] at heq
          rw [← heq.2]
          exact streamInvInsert db _ _ _ h rfl
    · simp [end_stream_session_json, hsess, hty] at heq
      rw [← heq.2]
      exact h

/-- C7: both leaderboard queries return at most limit rows, sorted in
descending order of total time, and repeated calls on the same state give
the same result. -/
theorem claim_C7_top_queries_sorted_bounded (db : DB) (n : Nat) :
    (get_top_voice_users db n).length ≤ n ∧
    (get_top_voice_users db n).Pairwise
      (fun a b => b.total_time ≤ a.total_time) ∧
    get_top_voice_users db n = get_top_voice_users db n ∧
    (get_top_streamers db n).length ≤ n ∧
    (get_top_streamers db n).Pairwise
      (fun a b => b.total_time ≤ a.total_time) ∧
    get_top_streamers db n = get_top_streamers db n := by
  have htrans : ∀ a b c : TopEntry,
      decide (b.total_time ≤ a.total_time) = true →
      decide (c.total_time ≤ b.total_time) = true →
      decide (c.total_time ≤ a.total_time) = true := by
    intro a b c hab hbc
    rw [decide_eq_true_eq] at *
    exact le_trans hbc hab
  have htotal : ∀ a b : TopEntry,
      (decide (b.total_time ≤ a.total_time) ||
        decide (a.total_time ≤ b.total_time)) = true := by
    intro a b
    rcases le_total a.total_time b.total_time with hle | hle
    · simp [hle]
    · simp [hle]
  have hsortv := @List.sorted_mergeSort TopEntry
    (fun a b : TopEntry => decide (b.total_time ≤ a.total_time))
    htrans htotal
    (db.voice_time.map fun p =>
      TopEntry.mk (p.1.toNat?.getD 0) p.2.username p.2.total_voice_time
        p.2.voice_sessions)
  have hsorts := @List.sorted_mergeSort TopEntry
    (fun a b : TopEntry => decide (b.total_time ≤ a.total_time))
    htrans htotal
    (db.streamers.map fun p =>
      TopEntry.mk (p.1.toNat?.getD 0) p.2.username p.2.total_stream_time
        p.2.stream_sessions)
  refine ⟨List.length_take_le _ _,
    ?_, rfl, List.length_take_le _ _, ?_, rfl⟩
  · exact ((hsortv.sublist (List.take_sublist n _)).imp
      fun hpq => of_decide_eq_true hpq)
  · exact ((hsorts.sublist (List.take_sublist n _)).imp
      fun hpq => of_decide_eq_true hpq)

/-- C8: get_user_watch_stats returns an explicit not-found None for a user
with no voice aggregate row and never a zero-valued record, and for a user
with a row it returns exactly that row totals and session count. -/
theorem claim_C8_user_stats_lookup (db : DB) (u : Nat) :
    (lookupA db.voice_time (toString u) = none →
      get_user_watch_stats db u = none) ∧
    (∀ r, lookupA db.voice_time (toString u) = some r →
      get_user_watch_stats db u
        = some (r.total_voice_time, r.voice_sessions)) := by
  constructor
  · intro hl
    simp [get_user_watch_stats, hl]
  · intro r hl
    simp [get_user_watch_stats, hl]

/-- C8 witness: user 9 absent from the empty store gives None; user 2 with
a stored aggregate row gives that row totals. -/
theorem claim_C8_user_stats_lookup_witness :
    get_user_watch_stats emptyDB 9 = none ∧
    get_user_watch_stats
      (DB.mk [] [("2", VoiceRow.mk 2 "User_2" 30 4 (.valid 0))] []) 2
      = some (30, 4) := by
  constructor
  · exact (claim_C8_user_stats_lookup emptyDB 9).1 rfl
  · exact (claim_C8_user_stats_lookup
      (DB.mk [] [("2", VoiceRow.mk 2 "User_2" 30 4 (.valid 0))] []) 2).2
      (VoiceRow.mk 2 "User_2" 30 4 (.valid 0)) rfl

/-- Decoding inverts encoding on a voice aggregate row. -/
theorem decodeVoiceRow_encodeVoiceRow (r : VoiceRow) :
    decodeVoiceRow (encodeVoiceRow r) = some r := by
  cases r with
  | mk uid un tot ses lj => simp [encodeVoiceRow, decodeVoiceRow]

/-- Decoding inverts encoding on a stream aggregate row. -/
theorem decodeStreamRow_encodeStreamRow (r : StreamRow) :
    decodeStreamRow (encodeStreamRow r) = some r := by
  cases r with
  | mk uid un tot ses ls => simp [encodeStreamRow, decodeStreamRow]

/-- Decoding inverts encoding on an active session entry. -/
theorem decodeSession_encodeSession (s : ActiveSession) :
    decodeSession (encodeSession s) = some s := by
  cases s with
  | mk ty st ch => simp [encodeSession, decodeSession]

/-- Decoding inverts encoding on a whole table, for any entry codec that
round trips. -/
theorem decodeTable_encodeTable {α : Type} (enc : α → Json)
    (dec : Json → Option α) (h : ∀ a, dec (enc a) = some a) :
    ∀ l : List (String × α), decodeTable dec (encodeTable enc l) = some l := by
  intro l
  induction l with
  | nil => simp [encodeTable, decodeTable]
  | cons hd tl ih =>
    simp only [encodeTable, List.map_cons, decodeTable, h hd.2,
      Option.bind_eq_bind, Option.some_bind]
    simp only [encodeTable] at ih
    simp [ih]

/-- Writing the whole document and reading it back is the identity on the
persisted state. -/
theorem readJson_writeJson (db : DB) : readJson (writeJson db) = some db := by
  cases db with
  | mk ss vs as =>
    simp [writeJson, readJson,
      decodeTable_encodeTable _ _ decodeStreamRow_encodeStreamRow,
      decodeTable_encodeTable _ _ decodeVoiceRow_encodeVoiceRow,
      decodeTable_encodeTable _ _ decodeSession_encodeSession]

/-- C9: after any sequence of updates applied through the flat-file
backend, re-reading the document written by the last update reproduces
exactly the in-memory state, totals and session counts included. -/
theorem claim_C9_json_roundtrip (es : List Event) :
    readJson (writeJson (applyEvents emptyDB es))
      = some (applyEvents emptyDB es) :=
  readJson_writeJson _

/-- C10: the username argument of the start operations is never persisted
(two starts differing only in username produce identical states), and
every operation preserves the invariant that each stored aggregate row
carries the placeholder username User_ followed by its user id. -/
theorem claim_C10_username_placeholder_invariant (db : DB) (u : Nat)
    (n1 n2 : String) (ch : Nat) (t : ℚ) (h : UsernameInv db) :
    start_voice_session db u n1 ch t = start_voice_session db u n2 ch t ∧
    start_stream_session db u n1 ch t = start_stream_session db u n2 ch t ∧
    UsernameInv (start_voice_session db u n1 ch t) ∧
    UsernameInv (start_stream_session db u n1 ch t) ∧
    UsernameInv (end_voice_session_sqlite db u t).2 ∧
    UsernameInv (end_stream_session_sqlite db u t).2 ∧
    (∀ m db2, end_voice_session_json db u t = some (m, db2) →
      UsernameInv db2) ∧
    (∀ m db2, end_stream_session_json db u t = some (m, db2) →
      UsernameInv db2) :=
  ⟨rfl, rfl, ⟨h.1, h.2⟩, ⟨h.1, h.2⟩,
    end_voice_sqlite_inv db u t h, end_stream_sqlite_inv db u t h,
    fun m db2 heq => end_voice_json_inv db u t m db2 h heq,
    fun m db2 heq => end_stream_json_inv db u t m db2 h heq⟩

/-- C10 witness: the statement applied to a one-row store satisfying the
invariant. -/
theorem claim_C10_username_placeholder_invariant_witness :
    let db := DB.mk [("3", StreamRow.mk 3 ("User_" ++ toString 3) 7 1 (.valid 0))]
      [("2", VoiceRow.mk 2 ("User_" ++ toString 2) 30 4 (.valid 0))]
      [("2", ActiveSession.mk "voice" (.valid 5) 8)]
    start_voice_session db 2 "alice" 8 9 = start_voice_session db 2 "bob" 8 9 ∧
    start_stream_session db 2 "alice" 8 9 = start_stream_session db 2 "bob" 8 9 ∧
    UsernameInv (start_voice_session db 2 "alice" 8 9) ∧
    UsernameInv (start_stream_session db 2 "alice" 8 9) ∧
    UsernameInv (end_voice_session_sqlite db 2 9).2 ∧
    UsernameInv (end_stream_session_sqlite db 2 9).2 ∧
    (∀ m db2, end_voice_session_json db 2 9 = some (m, db2) →
      UsernameInv db2) ∧
    (∀ m db2, end_stream_session_json db 2 9 = some (m, db2) →
      UsernameInv db2) :=
  claim_C10_username_placeholder_invariant
    (DB.mk [("3", StreamRow.mk 3 ("User_" ++ toString 3) 7 1 (.valid 0))]
      [("2", VoiceRow.mk 2 ("User_" ++ toString 2) 30 4 (.valid 0))]
      [("2", ActiveSession.mk "voice" (.valid 5) 8)])
    2 "alice" "bob" 8 9
    (by constructor
        · intro p hp
          simp only [List.mem_singleton] at hp
          rw [hp]
        · intro p hp
          simp only [List.mem_singleton] at hp
          rw [hp])

end ViewerTracker
